import Mathlib

set_option linter.unusedVariables false

/-!
Shallow embedding of the kubedog generic unstructured-resource engine
(pkg/kubernetes/unstructured.go together with the client context in the
kube package): CRUD dispatch over a dynamic client, the three
convergence-polling loops, and the two-phase bulk directory delete.

Remote interactions are modelled by explicit result values: a dispatch
call takes a client record of result-returning functions, a polling loop
takes a trace assigning to each attempt index the outcome of that fetch.
Every polling function also returns the number of fetches it performed,
so that attempt-count properties can be stated directly.
-/

/-- Errors, classified the way the Go code classifies them.
kerrors.IsNotFound and kerrors.IsAlreadyExists recognise only API status
errors; waiter timeouts, selector format errors and unsupported-operation
errors come from errors.New / fmt.Errorf and are never not-found. -/
inductive GoErr where
  | notFound (msg : String)
  | alreadyExists (msg : String)
  | otherAPI (msg : String)
  | timeout (msg : String)
  | format (msg : String)
  | unsupported (op : String)
  | parseFailure (msg : String)
  | walkFailure (msg : String)
  deriving DecidableEq, Repr

/-- kerrors.IsNotFound: true exactly for an API not-found status error. -/
def GoErr.isNotFound : GoErr → Bool
  | .notFound _ => true
  | _ => false

/-- kerrors.IsAlreadyExists: true exactly for an API already-exists status error. -/
def GoErr.isAlreadyExists : GoErr → Bool
  | .alreadyExists _ => true
  | _ => false

/-- The fields of an unstructured resource the dispatcher reads or writes:
kind, metadata.name, metadata.namespace (empty string when absent) and
metadata.resourceVersion. -/
structure Resource where
  kind : String
  name : String
  metaNs : String
  resourceVersion : String
  deriving DecidableEq, Repr

/-- One call made against the dynamic client, recording the namespace it
was addressed to. -/
inductive APICall where
  | createCall (ns : String) (r : Resource)
  | getCall (ns name : String)
  | updateCall (ns : String) (r : Resource)
  | deleteCall (ns name : String)
  deriving DecidableEq, Repr

/-- The namespace a recorded API call was addressed to. -/
def APICall.nsOf : APICall → String
  | .createCall ns _ => ns
  | .getCall ns _ => ns
  | .updateCall ns _ => ns
  | .deleteCall ns _ => ns

/-- The dynamic client interface as the dispatcher consumes it:
each method returns either a value or an error. -/
structure DynClient where
  createR : String → Resource → Except GoErr Resource
  getR : String → String → Except GoErr Resource
  updateR : String → Resource → Except GoErr Resource
  deleteR : String → String → Except GoErr Unit

/-- Operation and state tokens (constants from the kube package). -/
def operationCreate : String := "create"

def operationSubmit : String := "submit"

def operationUpdate : String := "update"

def operationDelete : String := "delete"

def stateCreated : String := "created"

def stateDeleted : String := "deleted"

def stateUpgraded : String := "upgraded"

/-- The switch of unstructuredResourceOperation (unstructured.go lines
104-141), after the namespace has been resolved. Returns the dispatch
result together with the list of remote API calls performed, in order. -/
def unstructuredResourceOperationResolved (client : DynClient) (operation ns : String)
    (res : Resource) : Except GoErr Unit × List APICall :=
  if operation = operationCreate ∨ operation = operationSubmit then
    match client.createR ns res with
    | .error e =>
      if e.isAlreadyExists then (.ok (), [.createCall ns res])
      else (.error e, [.createCall ns res])
    | .ok _ => (.ok (), [.createCall ns res])
  else if operation = operationUpdate then
    match client.getR ns res.name with
    | .error e => (.error e, [.getCall ns res.name])
    | .ok current =>
      match client.updateR ns { res with resourceVersion := current.resourceVersion } with
      | .error e =>
        (.error e, [.getCall ns res.name,
          .updateCall ns { res with resourceVersion := current.resourceVersion }])
      | .ok _ =>
        (.ok (), [.getCall ns res.name,
          .updateCall ns { res with resourceVersion := current.resourceVersion }])
  else if operation = operationDelete then
    match client.deleteR ns res.name with
    | .error e =>
      if e.isNotFound then (.ok (), [.deleteCall ns res.name])
      else (.error e, [.deleteCall ns res.name])
    | .ok _ => (.ok (), [.deleteCall ns res.name])
  else (.error (.unsupported operation), [])

/-- unstructuredResourceOperation (unstructured.go lines 97-142): resolve
the namespace (a non-empty override wins, otherwise the namespace embedded
in the resource metadata), then dispatch on the operation token. -/
def unstructuredResourceOperation (client : DynClient) (operation ns0 : String)
    (res : Resource) : Except GoErr Unit × List APICall :=
  unstructuredResourceOperationResolved client operation
    (if ns0 = "" then res.metaNs else ns0) res

/-- Generic nested document value, the shape decoded YAML/JSON takes behind
the unstructured interface (map[string]interface, []interface, scalars). -/
inductive JVal where
  | null
  | str (s : String)
  | num (n : Int)
  | boolV (b : Bool)
  | arr (elems : List JVal)
  | obj (fields : List (String × JVal))

/-- Go map lookup on the association-list representation of an object. -/
def lookupField : List (String × JVal) → String → Option JVal
  | [], _ => none
  | (k, v) :: rest, key => if k = key then some v else lookupField rest key

/-- unstructured.NestedFieldNoCopy: walk the field path through nested
objects; none when a key is missing or an intermediate is not an object. -/
def nestedField : JVal → List String → Option JVal
  | v, [] => some v
  | JVal.obj fields, key :: rest =>
    match lookupField fields key with
    | some v => nestedField v rest
    | none => none
  | _, _ :: _ => none

/-- unstructured.NestedString: some s exactly when the path resolves to a
string (the ok=true case; whenever ok is true the error is nil). -/
def NestedString (v : JVal) (fields : List String) : Option String :=
  match nestedField v fields with
  | some (JVal.str s) => some s
  | _ => none

/-- unstructured.NestedSlice: some list exactly when the path resolves to a
slice (the ok=true case; whenever ok is true the error is nil). -/
def NestedSlice (v : JVal) (fields : List String) : Option (List JVal) :=
  match nestedField v fields with
  | some (JVal.arr xs) => some xs
  | _ => none

/-- strings.Split with a one-character separator (structural worker). -/
def splitCharAux (sep : Char) : List Char → List Char → List String
  | [], acc => [String.mk acc.reverse]
  | c :: rest, acc =>
    if c = sep then String.mk acc.reverse :: splitCharAux sep rest []
    else splitCharAux sep rest (c :: acc)

/-- strings.Split with a one-character separator. -/
def splitChar (sep : Char) (s : String) : List String := splitCharAux sep s.data []

/-- Modelled from the spec: util.DeleteEmpty from internal/utilities is not
under src/. It removes empty strings from a slice preserving order, as the
spec requires for its reachable failure modes (section 4.4: a selector with
an empty key fails with a format error, which is only reachable if empty
split segments are dropped before the length checks). -/
def DeleteEmpty (xs : List String) : List String := xs.filter (fun s => s != "")

/-- strings.EqualFold, restricted to simple per-character case folding. -/
def equalFold (a b : String) : Bool := a.toLower == b.toLower

/-- filepath.Ext worker: scan the reversed character list until a dot
(returning the extension) or a path separator (no extension). -/
def extAux : List Char → List Char → Option (List Char)
  | [], _ => none
  | c :: rest, acc =>
    if c = '/' then none
    else if c = '.' then some (c :: acc)
    else extAux rest (c :: acc)

/-- filepath.Ext: the suffix beginning at the final dot of the last path
element, empty when there is none. -/
def fileExt (path : String) : String :=
  match extAux path.data.reverse [] with
  | some cs => String.mk cs
  | none => ""

/-- x/text cases.Title for one word: first character upper, rest lower
(ASCII simple casing). -/
def capitalizeWord (w : String) : String :=
  match w.data with
  | [] => ""
  | c :: rest => String.mk (c.toUpper :: rest.map Char.toLower)

/-- x/text cases.Title(language.English), ASCII simple casing: capitalize
each space-separated word. -/
def titleEnglish (s : String) : String :=
  String.intercalate " " ((splitChar ' ' s).map capitalizeWord)

/-- Existence-poll loop of ResourceShouldBe (unstructured.go lines
176-207), structural on remaining = tries - counter (the loop exits when
counter reaches tries and increments counter each iteration). Returns the
result together with the number of fetches performed. -/
def resourceShouldBeAux (fetch : Nat → Except GoErr Unit) (state : String) :
    Nat → Nat → Except GoErr Unit × Nat
  | _, 0 => (.error (.timeout "waiter timed out waiting for resource state"), 0)
  | counter, remaining + 1 =>
    match fetch counter with
    | .error e =>
      if e.isNotFound then
        if state = stateDeleted then (.ok (), 1)
        else
          let r := resourceShouldBeAux fetch state (counter + 1) remaining
          (r.1, r.2 + 1)
      else (.error e, 1)
    | .ok _ =>
      if state = stateDeleted then
        let r := resourceShouldBeAux fetch state (counter + 1) remaining
        (r.1, r.2 + 1)
      else if state = stateCreated then (.ok (), 1)
      else
        let r := resourceShouldBeAux fetch state (counter + 1) remaining
        (r.1, r.2 + 1)

/-- The ResourceShouldBe loop entered at a given counter value. -/
def resourceShouldBeFrom (fetch : Nat → Except GoErr Unit) (tries : Nat) (state : String)
    (counter : Nat) : Except GoErr Unit × Nat :=
  resourceShouldBeAux fetch state counter (tries - counter)

/-- ResourceShouldBe polling: fetch-trace in, result and fetch count out. -/
def ResourceShouldBe (fetch : Nat → Except GoErr Unit) (tries : Nat) (state : String) :
    Except GoErr Unit × Nat :=
  resourceShouldBeFrom fetch tries state 0

/-- Field-convergence loop of ResourceShouldConvergeToSelector
(unstructured.go lines 237-258), structural on remaining fuel. -/
def convergeLoopAux (fetch : Nat → Except GoErr JVal) (keySlice : List String)
    (value : String) : Nat → Nat → Except GoErr Unit × Nat
  | _, 0 => (.error (.timeout "waiter timed out waiting for resource"), 0)
  | counter, remaining + 1 =>
    match fetch counter with
    | .error e => (.error e, 1)
    | .ok cr =>
      match NestedString cr keySlice with
      | some val =>
        if equalFold val value then (.ok (), 1)
        else
          let r := convergeLoopAux fetch keySlice value (counter + 1) remaining
          (r.1, r.2 + 1)
      | none =>
        let r := convergeLoopAux fetch keySlice value (counter + 1) remaining
        (r.1, r.2 + 1)

/-- The field-convergence loop entered at a given counter value. -/
def convergeLoopFrom (fetch : Nat → Except GoErr JVal) (tries : Nat) (keySlice : List String)
    (value : String) (counter : Nat) : Except GoErr Unit × Nat :=
  convergeLoopAux fetch keySlice value counter (tries - counter)

/-- ResourceShouldConvergeToSelector (unstructured.go lines 209-261):
selector format checks first, then the convergence loop. -/
def ResourceShouldConvergeToSelector (fetch : Nat → Except GoErr JVal) (tries : Nat)
    (selector : String) : Except GoErr Unit × Nat :=
  match DeleteEmpty (splitChar '=' selector) with
  | [key, value] =>
    match DeleteEmpty (splitChar '.' key) with
    | [] => (.error (.format ("Found empty key in selector " ++ selector)), 0)
    | k :: ks => convergeLoopFrom fetch tries (k :: ks) value 0
  | _ => (.error (.format ("Selector " ++ selector ++ " should meet format key=value")), 0)

/-- Outcome of scanning one status.conditions list in
ResourceConditionShouldBe (unstructured.go lines 295-314): a matching
entry found, no matching entry, or a Go runtime panic from the unchecked
string type assertion on the status value. -/
inductive ScanOutcome where
  | matched
  | noMatch
  | panicked
  deriving DecidableEq, Repr

/-- The inner for-range over status.conditions: skip entries that are not
maps, lack a type key, or have a non-string type; on a type match the code
asserts condition status to be a string without an ok-check, so a missing
or non-string status there is a runtime panic. -/
def scanConditions (cType expected : String) : List JVal → ScanOutcome
  | [] => .noMatch
  | c :: rest =>
    match c with
    | JVal.obj fields =>
      match lookupField fields "type" with
      | none => scanConditions cType expected rest
      | some tp =>
        match tp with
        | JVal.str condType =>
          if condType = cType then
            match lookupField fields "status" with
            | some (JVal.str status) =>
              if status = expected then .matched
              else scanConditions cType expected rest
            | _ => .panicked
          else scanConditions cType expected rest
        | _ => scanConditions cType expected rest
    | _ => scanConditions cType expected rest

/-- Result of the condition-match poll, with a case for a Go runtime
panic escaping the loop. -/
inductive PollOut where
  | okOut
  | errOut (e : GoErr)
  | panicOut
  deriving DecidableEq, Repr

/-- Condition-match loop of ResourceConditionShouldBe (unstructured.go
lines 280-318), structural on remaining fuel. -/
def conditionLoopAux (fetch : Nat → Except GoErr JVal) (cType expected : String) :
    Nat → Nat → PollOut × Nat
  | _, 0 => (.errOut (.timeout "waiter timed out waiting for resource state"), 0)
  | counter, remaining + 1 =>
    match fetch counter with
    | .error e => (.errOut e, 1)
    | .ok cr =>
      match NestedSlice cr ["status", "conditions"] with
      | some conditions =>
        match scanConditions cType expected conditions with
        | .matched => (.okOut, 1)
        | .panicked => (.panicOut, 1)
        | .noMatch =>
          let r := conditionLoopAux fetch cType expected (counter + 1) remaining
          (r.1, r.2 + 1)
      | none =>
        let r := conditionLoopAux fetch cType expected (counter + 1) remaining
        (r.1, r.2 + 1)

/-- The condition-match loop entered at a given counter value. -/
def conditionLoopFrom (fetch : Nat → Except GoErr JVal) (tries : Nat)
    (cType expected : String) (counter : Nat) : PollOut × Nat :=
  conditionLoopAux fetch cType expected counter (tries - counter)

/-- ResourceConditionShouldBe (unstructured.go lines 263-319): the
expected status is title-cased once, then the loop runs. -/
def ResourceConditionShouldBe (fetch : Nat → Except GoErr JVal) (tries : Nat)
    (cType status : String) : PollOut × Nat :=
  conditionLoopFrom fetch tries cType (titleEnglish status) 0

/-- os.FileInfo as the walk callbacks consume it. -/
structure FileInfo where
  isDir : Bool
  deriving DecidableEq, Repr

/-- deleteFn inside DeleteResourcesAtPath (unstructured.go lines 378-399):
propagate walk errors, skip directories and non-yaml files, resolve the
file, submit the delete — any delete error, not-found included, is
returned as is. -/
def deleteFn (client : DynClient) (getRes : String → Except GoErr Resource)
    (path : String) (info : FileInfo) (walkFail : Option GoErr) : Except GoErr Unit :=
  match walkFail with
  | some e => .error e
  | none =>
    if info.isDir || fileExt path != ".yaml" then .ok ()
    else
      match getRes path with
      | .error e => .error e
      | .ok r =>
        match client.deleteR r.metaNs r.name with
        | .error e => .error e
        | .ok _ => .ok ()

/-- Wait loop inside waitFn of DeleteResourcesAtPath (unstructured.go
lines 420-434), structural on remaining fuel: a not-found fetch ends the
wait successfully; any other fetch outcome, errors included, just
increments the counter and retries. -/
def waitLoopAux (fetch : Nat → Except GoErr Unit) : Nat → Nat → Except GoErr Unit × Nat
  | _, 0 => (.error (.timeout "waiter timed out waiting for deletion"), 0)
  | counter, remaining + 1 =>
    match fetch counter with
    | .error e =>
      if e.isNotFound then (.ok (), 1)
      else
        let r := waitLoopAux fetch (counter + 1) remaining
        (r.1, r.2 + 1)
    | .ok _ =>
      let r := waitLoopAux fetch (counter + 1) remaining
      (r.1, r.2 + 1)

/-- The waitFn loop entered at a given counter value. -/
def waitLoopFrom (fetch : Nat → Except GoErr Unit) (tries counter : Nat) :
    Except GoErr Unit × Nat :=
  waitLoopAux fetch counter (tries - counter)

/-- waitFn inside DeleteResourcesAtPath (unstructured.go lines 401-436):
propagate walk errors, skip directories and non-yaml files, resolve the
file, then run the wait loop. -/
def waitFn (client : DynClient) (fetch : Nat → Except GoErr Unit)
    (getRes : String → Except GoErr Resource) (tries : Nat) (path : String)
    (info : FileInfo) (walkFail : Option GoErr) : Except GoErr Unit × Nat :=
  match walkFail with
  | some e => (.error e, 0)
  | none =>
    if info.isDir || fileExt path != ".yaml" then (.ok (), 0)
    else
      match getRes path with
      | .error e => (.error e, 0)
      | .ok _ => waitLoopFrom fetch tries 0

/-- Classifier for a selector format error result. -/
def isFormatErr : Except GoErr Unit → Bool
  | .error (.format _) => true
  | _ => false

/-- The remote resources present in the modelled cluster: namespace paired
with the stored resource. -/
abbrev RemoteState := List (String × Resource)

/-- Lookup of a stored resource by namespace and name. -/
def findRes : RemoteState → String → String → Option Resource
  | [], _, _ => none
  | (n, r) :: rest, ns, name =>
    if n = ns ∧ r.name = name then some r else findRes rest ns name

/-- Modelled from the spec: the generic orchestration API the dispatcher
consumes (spec section 6) is an external collaborator, not repository
code. Create reports already-exists for a present resource; get, update
and delete report not-found for an absent one. -/
def clientOf (s : RemoteState) : DynClient where
  createR := fun ns r =>
    match findRes s ns r.name with
    | some _ => .error (.alreadyExists "already exists")
    | none => .ok r
  getR := fun ns name =>
    match findRes s ns name with
    | some r => .ok r
    | none => .error (.notFound "not found")
  updateR := fun ns r =>
    match findRes s ns r.name with
    | some _ => .ok r
    | none => .error (.notFound "not found")
  deleteR := fun ns name =>
    match findRes s ns name with
    | some _ => .ok ()
    | none => .error (.notFound "not found")

/-- Modelled from the spec: the remote state after a create request has
been processed — the resource is stored if it was absent. -/
def stateAfterCreate (s : RemoteState) (ns : String) (r : Resource) : RemoteState :=
  match findRes s ns r.name with
  | some _ => s
  | none => (ns, r) :: s

/-- Concrete client whose delete and get always answer not-found. -/
def cexClient1 : DynClient where
  createR := fun _ r => .ok r
  getR := fun _ _ => .error (.notFound "nf")
  updateR := fun _ r => .ok r
  deleteR := fun _ _ => .error (.notFound "nf")

/-- Concrete client whose create always answers already-exists. -/
def cexClient2 : DynClient where
  createR := fun _ _ => .error (.alreadyExists "ae")
  getR := fun _ _ => .error (.notFound "nf")
  updateR := fun _ r => .ok r
  deleteR := fun _ _ => .ok ()

/-- A concrete resolved resource used at witness inputs. -/
def cmRes : Resource :=
  { kind := "ConfigMap", name := "cm", metaNs := "ns1", resourceVersion := "" }

/-- After a successful insert, lookup by the same namespace and name finds
a stored resource. -/
theorem findRes_stateAfterCreate (s : RemoteState) (ns : String) (r : Resource) :
    ∃ x, findRes (stateAfterCreate s ns r) ns r.name = some x := by
  unfold stateAfterCreate
  cases h : findRes s ns r.name with
  | some x => exact ⟨x, h⟩
  | none => exact ⟨r, by simp [findRes]⟩

/-- Every call recorded by the resolved dispatcher is addressed to the
namespace it was given. -/
theorem resolvedCallsNs (client : DynClient) (operation ns : String) (r : Resource) :
    ((unstructuredResourceOperationResolved client operation ns r).2).all
      (fun c => c.nsOf == ns) = true := by
  unfold unstructuredResourceOperationResolved
  repeat' split
  all_goals simp [APICall.nsOf]

/-- Existence poll with target deleted against fetches that always
succeed: every iteration retries, consuming all remaining fuel. -/
theorem resourceShouldBeAux_deleted_present (fetch : Nat → Except GoErr Unit)
    (h : ∀ k, fetch k = .ok ()) :
    ∀ remaining counter, resourceShouldBeAux fetch stateDeleted counter remaining
      = (.error (.timeout "waiter timed out waiting for resource state"), remaining) := by
  intro remaining
  induction remaining with
  | zero => intro counter; rfl
  | succ n ih =>
    intro counter
    simp only [resourceShouldBeAux, h counter, if_pos rfl]
    rw [ih (counter + 1)]
    simp

/-- Existence poll with a state token that is neither created nor deleted:
as long as fetches succeed or answer not-found, every iteration retries. -/
theorem resourceShouldBeAux_no_terminal_state (fetch : Nat → Except GoErr Unit)
    (state : String) (hc : state ≠ stateCreated) (hd : state ≠ stateDeleted)
    (h : ∀ k, fetch k = .ok () ∨ ∃ msg, fetch k = .error (.notFound msg)) :
    ∀ remaining counter, resourceShouldBeAux fetch state counter remaining
      = (.error (.timeout "waiter timed out waiting for resource state"), remaining) := by
  intro remaining
  induction remaining with
  | zero => intro counter; rfl
  | succ n ih =>
    intro counter
    rcases h counter with hok | ⟨msg, herr⟩
    · simp only [resourceShouldBeAux, hok, if_neg hd, if_neg hc]
      rw [ih (counter + 1)]
    · simp only [resourceShouldBeAux, herr, GoErr.isNotFound, if_true, if_neg hd]
      rw [ih (counter + 1)]

/-- The bulk-delete wait loop against fetches that always fail with the
same error other than not-found: every iteration retries, consuming all
remaining fuel. -/
theorem waitLoopAux_all_err (fetch : Nat → Except GoErr Unit) (e : GoErr)
    (h : ∀ k, fetch k = .error e) (hnf : e.isNotFound = false) :
    ∀ remaining counter, waitLoopAux fetch counter remaining
      = (.error (.timeout "waiter timed out waiting for deletion"), remaining) := by
  intro remaining
  induction remaining with
  | zero => intro counter; rfl
  | succ n ih =>
    intro counter
    simp only [waitLoopAux, h counter, hnf, if_false]
    rw [ih (counter + 1)]
    simp

/-- Claim C1 (amended): a delete dispatch treats a not-found answer as
success, but in phase one of the bulk directory delete a not-found
deletion error is returned to the caller rather than converted to
success. -/
theorem claim1_delete_not_found_amended :
    (∀ (client : DynClient) (ns0 : String) (r : Resource) (e : GoErr),
        client.deleteR (if ns0 = "" then r.metaNs else ns0) r.name = .error e →
        e.isNotFound = true →
        unstructuredResourceOperation client operationDelete ns0 r
          = (.ok (), [.deleteCall (if ns0 = "" then r.metaNs else ns0) r.name])) ∧
    (∀ (client : DynClient) (getRes : String → Except GoErr Resource) (path : String)
        (info : FileInfo) (r : Resource) (e : GoErr),
        info.isDir = false → fileExt path = ".yaml" → getRes path = .ok r →
        client.deleteR r.metaNs r.name = .error e →
        deleteFn client getRes path info none = .error e) := by
  constructor
  · intro client ns0 r e h hnf
    unfold unstructuredResourceOperation unstructuredResourceOperationResolved
    rw [if_neg (by decide), if_neg (by decide), if_pos rfl, h]
    simp [hnf]
  · intro client getRes path info r e hdir hext hres hdel
    unfold deleteFn
    simp [hdir, hext, hres, hdel]

/-- Claim C1 counterexample: a file-level delete in phase one of the bulk
directory delete whose remote answers not-found returns that error, not
success. -/
theorem claim1_counterexample :
    deleteFn cexClient1 (fun _ => .ok cmRes) "cm.yaml" { isDir := false } none
      = .error (.notFound "nf") ∧
    deleteFn cexClient1 (fun _ => .ok cmRes) "cm.yaml" { isDir := false } none
      ≠ .ok () :=
  ⟨rfl, fun h => nomatch h⟩

/-- Claim C1 witness: both conjuncts at concrete inputs. -/
theorem claim1_witness :
    unstructuredResourceOperation cexClient1 operationDelete "" cmRes
      = (.ok (), [.deleteCall "ns1" "cm"]) ∧
    deleteFn cexClient1 (fun _ => .ok cmRes) "other.yaml" { isDir := false } none
      = .error (.notFound "nf") :=
  ⟨claim1_delete_not_found_amended.1 cexClient1 "" cmRes _ rfl rfl,
   claim1_delete_not_found_amended.2 cexClient1 _ "other.yaml" _ cmRes _ rfl rfl rfl rfl⟩

/-- Claim C2: a create or submit dispatch whose remote answers
already-exists returns success; and against the spec-modelled remote, a
second create of the same resource never errors. -/
theorem claim2_create_already_exists :
    (∀ (client : DynClient) (op ns0 : String) (r : Resource) (e : GoErr),
        op = operationCreate ∨ op = operationSubmit →
        client.createR (if ns0 = "" then r.metaNs else ns0) r = .error e →
        e.isAlreadyExists = true →
        unstructuredResourceOperation client op ns0 r
          = (.ok (), [.createCall (if ns0 = "" then r.metaNs else ns0) r])) ∧
    (∀ (s : RemoteState) (ns0 : String) (r : Resource),
        unstructuredResourceOperation
            (clientOf (stateAfterCreate s (if ns0 = "" then r.metaNs else ns0) r))
            operationCreate ns0 r
          = (.ok (), [.createCall (if ns0 = "" then r.metaNs else ns0) r])) := by
  constructor
  · intro client op ns0 r e hop h ha
    unfold unstructuredResourceOperation unstructuredResourceOperationResolved
    rw [if_pos hop, h]
    simp [ha]
  · intro s ns0 r
    obtain ⟨x, hx⟩ :=
      findRes_stateAfterCreate s (if ns0 = "" then r.metaNs else ns0) r
    unfold unstructuredResourceOperation unstructuredResourceOperationResolved
    rw [if_pos (Or.inl rfl)]
    have hcr : (clientOf (stateAfterCreate s (if ns0 = "" then r.metaNs else ns0) r)).createR
        (if ns0 = "" then r.metaNs else ns0) r
        = .error (.alreadyExists "already exists") := by
      unfold clientOf
      simp only [hx]
    rw [hcr]
    simp [GoErr.isAlreadyExists]

/-- Claim C2 witness: the first conjunct at a concrete client. -/
theorem claim2_witness :
    unstructuredResourceOperation cexClient2 operationCreate "ns2"
        { kind := "Pod", name := "p", metaNs := "", resourceVersion := "" }
      = (.ok (), [.createCall "ns2"
            { kind := "Pod", name := "p", metaNs := "", resourceVersion := "" }]) :=
  claim2_create_already_exists.1 cexClient2 operationCreate "ns2" _ _ (Or.inl rfl) rfl rfl

/-- Claim C3: with target deleted, an existence poll whose fetches always
report presence performs exactly N fetches and times out, and one whose
first fetch reports not-found succeeds on the first attempt. -/
theorem claim3_existence_poll_deleted :
    (∀ (N : Nat) (fetch : Nat → Except GoErr Unit), 1 ≤ N → (∀ k, fetch k = .ok ()) →
        ResourceShouldBe fetch N stateDeleted
          = (.error (.timeout "waiter timed out waiting for resource state"), N)) ∧
    (∀ (N : Nat) (fetch : Nat → Except GoErr Unit) (msg : String), 1 ≤ N →
        fetch 0 = .error (.notFound msg) →
        ResourceShouldBe fetch N stateDeleted = (.ok (), 1)) := by
  constructor
  · intro N fetch _ h
    unfold ResourceShouldBe resourceShouldBeFrom
    rw [Nat.sub_zero]
    exact resourceShouldBeAux_deleted_present fetch h N 0
  · intro N fetch msg hN h
    unfold ResourceShouldBe resourceShouldBeFrom
    rw [Nat.sub_zero]
    obtain ⟨m, rfl⟩ : ∃ m, N = m + 1 := ⟨N - 1, by omega⟩
    simp only [resourceShouldBeAux, h, GoErr.isNotFound, if_true, if_pos rfl]

/-- Claim C3 witness: both conjuncts at concrete inputs. -/
theorem claim3_witness :
    ResourceShouldBe (fun _ => .ok ()) 2 stateDeleted
      = (.error (.timeout "waiter timed out waiting for resource state"), 2) ∧
    ResourceShouldBe (fun _ => .error (.notFound "nf")) 3 stateDeleted = (.ok (), 1) :=
  ⟨claim3_existence_poll_deleted.1 2 _ (by decide) (fun _ => rfl),
   claim3_existence_poll_deleted.2 3 _ "nf" (by decide) rfl⟩

/-- Claim C4 (amended): the existence, field-convergence and
condition-match polls return a fetch error other than not-found
immediately, with exactly one fetch from the failing attempt on; the
bulk-delete wait phase instead ignores such errors and retries until the
budget is exhausted, returning a timeout. -/
theorem claim4_fetch_error_handling :
    (∀ (fetch : Nat → Except GoErr Unit) (tries counter : Nat) (state : String) (e : GoErr),
        counter < tries → fetch counter = .error e → e.isNotFound = false →
        resourceShouldBeFrom fetch tries state counter = (.error e, 1)) ∧
    (∀ (fetch : Nat → Except GoErr JVal) (tries counter : Nat) (keySlice : List String)
        (value : String) (e : GoErr),
        counter < tries → fetch counter = .error e →
        convergeLoopFrom fetch tries keySlice value counter = (.error e, 1)) ∧
    (∀ (fetch : Nat → Except GoErr JVal) (tries counter : Nat) (cType expected : String)
        (e : GoErr),
        counter < tries → fetch counter = .error e →
        conditionLoopFrom fetch tries cType expected counter = (.errOut e, 1)) ∧
    (∀ (fetch : Nat → Except GoErr Unit) (tries counter : Nat) (e : GoErr),
        counter ≤ tries → (∀ k, fetch k = .error e) → e.isNotFound = false →
        waitLoopFrom fetch tries counter
          = (.error (.timeout "waiter timed out waiting for deletion"), tries - counter)) := by
  refine ⟨?_, ?_, ?_, ?_⟩
  · intro fetch tries counter state e hlt h hnf
    unfold resourceShouldBeFrom
    obtain ⟨d, hd⟩ : ∃ d, tries - counter = d + 1 := ⟨tries - counter - 1, by omega⟩
    rw [hd]
    simp only [resourceShouldBeAux, h, hnf, if_false]
    simp
  · intro fetch tries counter keySlice value e hlt h
    unfold convergeLoopFrom
    obtain ⟨d, hd⟩ : ∃ d, tries - counter = d + 1 := ⟨tries - counter - 1, by omega⟩
    rw [hd]
    simp only [convergeLoopAux, h]
  · intro fetch tries counter cType expected e hlt h
    unfold conditionLoopFrom
    obtain ⟨d, hd⟩ : ∃ d, tries - counter = d + 1 := ⟨tries - counter - 1, by omega⟩
    rw [hd]
    simp only [conditionLoopAux, h]
  · intro fetch tries counter e hle h hnf
    unfold waitLoopFrom
    exact waitLoopAux_all_err fetch e h hnf (tries - counter) counter

/-- Claim C4 counterexample: in the bulk-delete wait loop, a fetch error
other than not-found on the first attempt is not returned; the loop
retries and times out after the full budget. -/
theorem claim4_counterexample :
    waitLoopFrom (fun _ => .error (.otherAPI "boom")) 2 0
      = (.error (.timeout "waiter timed out waiting for deletion"), 2) ∧
    waitLoopFrom (fun _ => .error (.otherAPI "boom")) 2 0
      ≠ (.error (.otherAPI "boom"), 1) :=
  ⟨rfl, fun h => nomatch h⟩

/-- Claim C4 witness: all four conjuncts at concrete inputs. -/
theorem claim4_witness :
    resourceShouldBeFrom (fun _ => .error (.otherAPI "boom")) 3 stateCreated 0
      = (.error (.otherAPI "boom"), 1) ∧
    convergeLoopFrom (fun _ => .error (.otherAPI "boom")) 3 ["a"] "v" 0
      = (.error (.otherAPI "boom"), 1) ∧
    conditionLoopFrom (fun _ => .error (.otherAPI "boom")) 3 "Ready" "True" 0
      = (.errOut (.otherAPI "boom"), 1) ∧
    waitLoopFrom (fun _ => .error (.otherAPI "boom")) 3 0
      = (.error (.timeout "waiter timed out waiting for deletion"), 3) :=
  ⟨claim4_fetch_error_handling.1 _ 3 0 stateCreated _ (by decide) rfl rfl,
   claim4_fetch_error_handling.2.1 _ 3 0 ["a"] "v" _ (by decide) rfl,
   claim4_fetch_error_handling.2.2.1 _ 3 0 "Ready" "True" _ (by decide) rfl,
   claim4_fetch_error_handling.2.2.2 _ 3 0 _ (by decide) (fun _ => rfl) rfl⟩

/-- Claim C5 (code bug): a conditions entry whose type matches the
requested type but which has no string status hits the unchecked string
type assertion — the poll panics instead of skipping the entry, while
entries malformed in the other ways are skipped. -/
theorem claim5_condition_scan_panics :
    ResourceConditionShouldBe
        (fun _ => .ok (JVal.obj [("status", JVal.obj [("conditions",
          JVal.arr [JVal.obj [("type", JVal.str "Ready")]])])]))
        1 "Ready" "true"
      = (.panicOut, 1) ∧
    scanConditions "Ready" "True" [JVal.obj [("type", JVal.str "Ready")]]
      = .panicked ∧
    scanConditions "Ready" "True"
        [JVal.str "nonmap", JVal.obj [("reason", JVal.str "x")],
         JVal.obj [("type", JVal.num 3)]]
      = .noMatch := ⟨rfl, rfl, rfl⟩

/-- Claim C6 (amended): a selector whose split on the equals sign, after
dropping empty segments, does not have exactly two parts, or whose key
has no nonempty dot-separated segment, fails with a format error before
any fetch; a selector with stacked equals signs such as a==b instead
passes the format check. -/
theorem claim6_selector_format_error (selector : String) (fetch : Nat → Except GoErr JVal)
    (tries : Nat)
    (h : ∀ key value, DeleteEmpty (splitChar '=' selector) = [key, value] →
        DeleteEmpty (splitChar '.' key) = []) :
    isFormatErr (ResourceShouldConvergeToSelector fetch tries selector).1 = true ∧
    (ResourceShouldConvergeToSelector fetch tries selector).2 = 0 := by
  unfold ResourceShouldConvergeToSelector
  rcases hs : DeleteEmpty (splitChar '=' selector) with _ | ⟨a, _ | ⟨b, _ | ⟨c, t⟩⟩⟩
  · exact ⟨rfl, rfl⟩
  · exact ⟨rfl, rfl⟩
  · dsimp only
    rw [h a b hs]
    exact ⟨rfl, rfl⟩
  · exact ⟨rfl, rfl⟩

/-- Claim C6 counterexample: the selector a==b does not contain exactly
one equals sign, yet the poll does not fail with a format error — it
proceeds to fetch. -/
theorem claim6_counterexample :
    isFormatErr (ResourceShouldConvergeToSelector
        (fun _ => .ok (JVal.obj [])) 1 "a==b").1 = false ∧
    (ResourceShouldConvergeToSelector (fun _ => .ok (JVal.obj [])) 1 "a==b").2 = 1 :=
  ⟨rfl, rfl⟩

/-- Claim C6 witness: the selector badselector fails before any fetch. -/
theorem claim6_witness :
    isFormatErr (ResourceShouldConvergeToSelector
        (fun _ => .ok (JVal.obj [])) 1 "badselector").1 = true ∧
    (ResourceShouldConvergeToSelector (fun _ => .ok (JVal.obj [])) 1 "badselector").2 = 0 :=
  claim6_selector_format_error "badselector" _ 1 (fun key value hkv => by
    rw [show DeleteEmpty (splitChar '=' "badselector") = ["badselector"] from rfl] at hkv
    injection hkv with h1 h2
    exact absurd h2.symm (List.cons_ne_nil value []))

/-- Claim C7: an operation token outside the closed set create, submit,
update, delete yields an unsupported-operation error with no remote
call. -/
theorem claim7_unsupported_operation (client : DynClient) (operation ns0 : String)
    (r : Resource) (h1 : operation ≠ operationCreate) (h2 : operation ≠ operationSubmit)
    (h3 : operation ≠ operationUpdate) (h4 : operation ≠ operationDelete) :
    unstructuredResourceOperation client operation ns0 r
      = (.error (.unsupported operation), []) := by
  unfold unstructuredResourceOperation unstructuredResourceOperationResolved
  rw [if_neg (fun hor => hor.elim h1 h2), if_neg h3, if_neg h4]

/-- Claim C7 witness: the token patch at a concrete client. -/
theorem claim7_witness :
    unstructuredResourceOperation cexClient2 "patch" "" cmRes
      = (.error (.unsupported "patch"), []) :=
  claim7_unsupported_operation cexClient2 "patch" "" cmRes
    (by decide) (by decide) (by decide) (by decide)

/-- Claim C8: an update dispatch fetches the live resource first; on fetch
failure the error is returned with no update submitted; on fetch success
the fetched version token is stamped onto the document and only then the
update is submitted. -/
theorem claim8_update_fetch_stamp_submit :
    (∀ (client : DynClient) (ns0 : String) (r : Resource) (e : GoErr),
        client.getR (if ns0 = "" then r.metaNs else ns0) r.name = .error e →
        unstructuredResourceOperation client operationUpdate ns0 r
          = (.error e, [.getCall (if ns0 = "" then r.metaNs else ns0) r.name])) ∧
    (∀ (client : DynClient) (ns0 : String) (r cur : Resource),
        client.getR (if ns0 = "" then r.metaNs else ns0) r.name = .ok cur →
        (unstructuredResourceOperation client operationUpdate ns0 r).2
          = [.getCall (if ns0 = "" then r.metaNs else ns0) r.name,
             .updateCall (if ns0 = "" then r.metaNs else ns0)
               { r with resourceVersion := cur.resourceVersion }]) := by
  constructor
  · intro client ns0 r e h
    unfold unstructuredResourceOperation unstructuredResourceOperationResolved
    rw [if_neg (by decide), if_pos rfl, h]
  · intro client ns0 r cur h
    unfold unstructuredResourceOperation unstructuredResourceOperationResolved
    rw [if_neg (by decide), if_pos rfl, h]
    dsimp only
    cases client.updateR (if ns0 = "" then r.metaNs else ns0)
        { r with resourceVersion := cur.resourceVersion } <;> rfl

/-- Claim C8 witness: both conjuncts at concrete inputs. -/
theorem claim8_witness :
    unstructuredResourceOperation cexClient1 operationUpdate "" cmRes
      = (.error (.notFound "nf"), [.getCall "ns1" "cm"]) ∧
    (unstructuredResourceOperation (clientOf [("ns1",
        { kind := "ConfigMap", name := "cm", metaNs := "ns1", resourceVersion := "7" })])
        operationUpdate "" cmRes).2
      = [.getCall "ns1" "cm", .updateCall "ns1"
          { kind := "ConfigMap", name := "cm", metaNs := "ns1", resourceVersion := "7" }] :=
  ⟨claim8_update_fetch_stamp_submit.1 cexClient1 "" cmRes _ rfl,
   claim8_update_fetch_stamp_submit.2 (clientOf [("ns1",
      { kind := "ConfigMap", name := "cm", metaNs := "ns1", resourceVersion := "7" })])
      "" cmRes _ rfl⟩

/-- Claim C9: every remote call a dispatch performs is addressed to the
caller-supplied namespace when non-empty, otherwise to the namespace
embedded in the resource metadata. -/
theorem claim9_namespace_resolution (client : DynClient) (operation ns0 : String)
    (r : Resource) :
    ((unstructuredResourceOperation client operation ns0 r).2).all
      (fun c => c.nsOf == (if ns0 = "" then r.metaNs else ns0)) = true :=
  resolvedCallsNs client operation (if ns0 = "" then r.metaNs else ns0) r

/-- Claim C10: with a state token outside created and deleted, an
existence poll whose fetches all succeed or answer not-found never
succeeds — it spends the whole budget and times out. -/
theorem claim10_nonterminal_state_times_out (state : String) (hc : state ≠ stateCreated)
    (hd : state ≠ stateDeleted) (N : Nat) (fetch : Nat → Except GoErr Unit)
    (h : ∀ k, fetch k = .ok () ∨ ∃ msg, fetch k = .error (.notFound msg)) :
    ResourceShouldBe fetch N state
      = (.error (.timeout "waiter timed out waiting for resource state"), N) := by
  unfold ResourceShouldBe resourceShouldBeFrom
  rw [Nat.sub_zero]
  exact resourceShouldBeAux_no_terminal_state fetch state hc hd h N 0

/-- Claim C10 witness: the state token upgraded at concrete inputs. -/
theorem claim10_witness :
    ResourceShouldBe (fun _ => .ok ()) 2 stateUpgraded
      = (.error (.timeout "waiter timed out waiting for resource state"), 2) :=
  claim10_nonterminal_state_times_out stateUpgraded (by decide) (by decide) 2 _
    (fun _ => Or.inl rfl)
